import Mathlib

/-!
Shallow embedding of `src/app.ts` (an Express + dotenv HTTP server) and of
the Node/Express runtime behaviour it relies on, together with proofs about
the startup sequence, port resolution, routing and logging.

The source program, in full (after the express and dotenv module
imports):

  dotenv.config()

  const app = express()
  const port = process.env.PORT || 3300

  app.get("/", (req, res) => \x7b
    res.send("Hello World! 3")
  \x7d)

  app.listen(port, () => \x7b
    console.log(`Server running on http://localhost:$\x7bport\x7d`)
  \x7d)
-/

namespace ExpressApp

/-- A process environment (and likewise a parsed `.env` file) is a finite
map from variable names to string values, modelled as an association list.
A key that is present maps to a string, which may be empty. -/
abbrev Env : Type := List (String × String)

/-- Look a key up in an environment: `process.env[k]`, which in JS is the
value if the key is set and `undefined` (here `none`) otherwise. -/
def lookupEnv (e : Env) (k : String) : Option String :=
  (e.find? (fun p => p.1 = k)).map (fun p => p.2)

/-- Effect of `dotenv.config()` on the lookup of key `k`: dotenv populates
`process.env` from the `.env` file but never overwrites a variable that is
already set in the process environment. After the call, a lookup sees the
process value when the key is set there, and the file value otherwise. -/
def envAfterDotenv (proc file : Env) (k : String) : Option String :=
  match lookupEnv proc k with
  | some v => some v
  | none => lookupEnv file k

/-- The value of the JS expression `process.env.PORT || 3300`.  In JS, `||`
returns its left operand unless it is falsy; among the possible values of
`process.env.PORT`, `undefined` and the empty string are the falsy ones.
The result is either the number `3300` or the unparsed `PORT` string. -/
inductive PortValue : Type
  | num (n : Nat)
  | str (s : String)
deriving DecidableEq

/-- `const port = process.env.PORT || 3300`, as a function of the value of
`process.env.PORT` at that point. -/
def resolvePort (portVar : Option String) : PortValue :=
  match portVar with
  | none => PortValue.num 3300
  | some s => if s = "" then PortValue.num 3300 else PortValue.str s

/-- The program's `port` constant: line 3 (`dotenv.config()`) runs before
line 6 (`const port = ...`), so the port is resolved from the environment
as already merged with the `.env` file. -/
def resolvedPort (proc file : Env) : PortValue :=
  resolvePort (envAfterDotenv proc file "PORT")

/-- HTTP request methods. -/
inductive Method : Type
  | GET | POST | PUT | DELETE | PATCH | HEAD | OPTIONS
deriving DecidableEq

/-- Render a method name, used only in the framework's not-found body. -/
def Method.render : Method → String
  | .GET => "GET"
  | .POST => "POST"
  | .PUT => "PUT"
  | .DELETE => "DELETE"
  | .PATCH => "PATCH"
  | .HEAD => "HEAD"
  | .OPTIONS => "OPTIONS"

/-- An incoming HTTP request, with the parts a handler could read. -/
structure Request : Type where
  method : Method
  path : String
  headers : List (String × String)
  query : List (String × String)
  body : String
deriving DecidableEq

/-- An HTTP response: status code and body. -/
structure Response : Type where
  status : Nat
  body : String
deriving DecidableEq

/-- Express's `res.send(body)`: status 200 (the default when the handler
sets none), with the given body — except that for a HEAD request `send`
suppresses the body and ends the response empty. -/
def send (req : Request) (body : String) : Response :=
  if req.method = Method.HEAD then { status := 200, body := "" }
  else { status := 200, body := body }

/-- The one route handler the application registers, for GET `/`:
`res.send("Hello World! 3")`.  The handler itself reads nothing from the
request; only `send`'s HEAD handling inside the framework does. -/
def rootHandler (req : Request) : Response :=
  send req "Hello World! 3"

/-- The route table built by the application: exactly one `app.get` call,
for path `/`. -/
def routes : List (Method × String) := [(Method.GET, "/")]

/-- Express 4 method matching for a registered route: the request method
must equal the route's method, except that a GET route also handles HEAD
requests when no HEAD route exists for the path (the router rewrites
`head` to `get`). -/
def routeHandlesMethod (routeMethod m : Method) : Bool :=
  routeMethod = m || (routeMethod = Method.GET && m = Method.HEAD)

/-- Whether some application-registered route matches the request. -/
def matchesRoute (m : Method) (p : String) : Bool :=
  routes.any (fun r => routeHandlesMethod r.1 m && r.2 = p)

/-- Whether some registered route exists at this path, whatever its
method: this is what makes the router's default OPTIONS responder fire. -/
def pathHasRoute (p : String) : Bool :=
  routes.any (fun r => r.2 = p)

/-- Express dispatch for this application: the registered handler when a
route matches (GET `/`, and HEAD `/` through the HEAD-to-GET fallthrough);
the router's default OPTIONS response — status 200 with the allowed-method
list `GET,HEAD` — for OPTIONS on a routed path; and otherwise the
framework's default not-found response, status 404 with the standard
`Cannot <METHOD> <path>` text. -/
def handleRequest (req : Request) : Response :=
  if matchesRoute req.method req.path then rootHandler req
  else if req.method = Method.OPTIONS && pathHasRoute req.path then
    { status := 200, body := "GET,HEAD" }
  else { status := 404, body := "Cannot " ++ req.method.render ++ " " ++ req.path }

/-- Where `server.listen` points the socket when handed a port argument:
Node treats a number, or a string that parses as a decimal number, as a
TCP port, and any other string as an IPC pipe path.  No range check is
performed by the application before this point. -/
inductive BindTarget : Type
  | tcp (port : Nat)
  | pipe (path : String)
deriving DecidableEq

/-- Read a run of decimal digits, accumulating their value; fails at the
first non-digit character. -/
def parseDecimalAux : List Char → Nat → Option Nat
  | [], acc => some acc
  | c :: cs, acc =>
    if c.isDigit then parseDecimalAux cs (acc * 10 + (c.toNat - 48))
    else none

/-- The numeric value of a string when it is a non-empty string of decimal
digits, and `none` otherwise; this is how Node's `listen` decides whether
a string argument names a TCP port or an IPC pipe. -/
def numericString (s : String) : Option Nat :=
  match s.data with
  | [] => none
  | cs => parseDecimalAux cs 0

/-- Normalisation that Node's `listen` applies to the program's `port`
value (which is a number only for the default, and otherwise the raw
`PORT` string). -/
def bindTarget : PortValue → BindTarget
  | PortValue.num n => BindTarget.tcp n
  | PortValue.str s =>
    match numericString s with
    | some n => BindTarget.tcp n
    | none => BindTarget.pipe s

/-- A TCP port number is valid when it fits in 16 bits. -/
def validTcpPort (n : Nat) : Bool := n ≤ 65535

/-- The listen calls the program performs, in order: exactly one,
`app.listen(port, ...)`, with the resolved port and no validation
in between. -/
def listenCalls (proc file : Env) : List BindTarget :=
  [bindTarget (resolvedPort proc file)]

/-- String interpolation of the `port` constant, as in the template
literal: a number prints in decimal, a string prints as itself. -/
def portString : PortValue → String
  | PortValue.num n => toString n
  | PortValue.str s => s

/-- The startup log line: `Server running on http://localhost:$\x7bport\x7d`. -/
def startupLog (p : PortValue) : String :=
  "Server running on http://localhost:" ++ portString p

/-- Everything the program writes to standard output, as a function of
whether the bind succeeded: the listen callback runs exactly once on
success and never on failure, and `console.log` in it is the only write. -/
def programStdout (proc file : Env) (bindOk : Bool) : List String :=
  if bindOk then [startupLog (resolvedPort proc file)] else []

end ExpressApp

namespace ExpressApp

/-- C1: every GET request to `/` gets status 200 and body exactly
`Hello World! 3` from the registered handler. -/
theorem get_root_response (req : Request)
    (hm : req.method = Method.GET) (hp : req.path = "/") :
    handleRequest req = { status := 200, body := "Hello World! 3" } := by
  simp [handleRequest, matchesRoute, routes, routeHandlesMethod, hm, hp,
    rootHandler, send]

/-- Witness for C1 at a concrete GET `/` request. -/
theorem get_root_response_witness :
    handleRequest
      { method := Method.GET, path := "/", headers := [], query := [],
        body := "" } = { status := 200, body := "Hello World! 3" } :=
  get_root_response _ rfl rfl

/-- C2 counterexample: the claim says a `PORT` value that does not parse
to a valid integer falls back to the default 3300, but `||` only tests
JS falsiness, so the non-numeric, non-empty string `abc` passes through
unchanged instead of resolving to 3300. -/
theorem resolvePort_nonnumeric_passthrough :
    resolvePort (some "abc") = PortValue.str "abc" ∧
      resolvePort (some "abc") ≠ PortValue.num 3300 := by
  constructor
  · rfl
  · decide

/-- C2 amended: the port resolves to the value of `PORT` whenever that
variable is set to a non-empty string (numeric or not), and to the
default 3300 exactly when `PORT` is absent or set to the empty string. -/
theorem resolvePort_cases :
    (∀ s : String, s ≠ "" → resolvePort (some s) = PortValue.str s) ∧
      resolvePort none = PortValue.num 3300 ∧
      resolvePort (some "") = PortValue.num 3300 := by
  refine ⟨fun s hs => ?_, rfl, rfl⟩
  simp [resolvePort, hs]

/-- Witness for the amended C2 at a concrete non-empty `PORT` value. -/
theorem resolvePort_cases_witness :
    resolvePort (some "4000") = PortValue.str "4000" :=
  resolvePort_cases.1 "4000" (by decide)

/-- C3: with `PORT` unset (in the process environment and not supplied by
the `.env` file either), the resolved port is the default 3300 and the
single listen call binds TCP port 3300. -/
theorem unset_port_binds_3300 (proc file : Env)
    (h : envAfterDotenv proc file "PORT" = none) :
    resolvedPort proc file = PortValue.num 3300 ∧
      listenCalls proc file = [BindTarget.tcp 3300] := by
  constructor
  · simp [resolvedPort, h, resolvePort]
  · simp [listenCalls, resolvedPort, h, resolvePort, bindTarget]

/-- Witness for C3 on the empty environments. -/
theorem unset_port_binds_3300_witness :
    resolvedPort [] [] = PortValue.num 3300 ∧
      listenCalls [] [] = [BindTarget.tcp 3300] :=
  unset_port_binds_3300 [] [] rfl

/-- C4: with `PORT` resolving to the string `4000`, the program makes
exactly one listen call, and it binds TCP port 4000. -/
theorem port_4000_binds_4000 (proc file : Env)
    (h : envAfterDotenv proc file "PORT" = some "4000") :
    listenCalls proc file = [BindTarget.tcp 4000] := by
  simp [listenCalls, resolvedPort, h, resolvePort, bindTarget]
  decide

/-- Witness for C4 with `PORT=4000` set in the process environment. -/
theorem port_4000_binds_4000_witness :
    listenCalls [("PORT", "4000")] [] = [BindTarget.tcp 4000] :=
  port_4000_binds_4000 [("PORT", "4000")] [] rfl

/-- C5 counterexample: the claim says every request other than GET `/`
matches no application handler and gets a 404, but Express 4 routes a
HEAD request through the registered GET handler when no HEAD route
exists, so HEAD `/` matches the application's route and is answered with
status 200 (body suppressed by `send`), not 404. -/
theorem head_root_served_by_get_handler :
    matchesRoute Method.HEAD "/" = true ∧
      handleRequest
          { method := Method.HEAD, path := "/", headers := [], query := [],
            body := "" } =
        { status := 200, body := "" } := by
  constructor
  · decide
  · decide

/-- C5 amended: for every request whose path is not `/`, and for every
method on `/` other than GET, HEAD and OPTIONS, no application-registered
route matches and the response is the framework's default 404; on `/`
itself, HEAD is served by the registered GET handler and OPTIONS by the
router's default Allow response, and application code customizes no route
other than GET `/`. -/
theorem unmatched_request_404 (req : Request)
    (h : ¬(req.path = "/" ∧ (req.method = Method.GET ∨
      req.method = Method.HEAD ∨ req.method = Method.OPTIONS))) :
    matchesRoute req.method req.path = false ∧
      (handleRequest req).status = 404 := by
  obtain ⟨m, p, hd, q, b⟩ := req
  by_cases hp : p = "/"
  · subst hp
    cases m <;>
      simp_all [matchesRoute, routes, routeHandlesMethod, handleRequest,
        pathHasRoute]
  · cases m <;>
      simp_all [matchesRoute, routes, routeHandlesMethod, handleRequest,
        pathHasRoute, eq_comm]

/-- Witness for the amended C5 at a concrete POST `/` request. -/
theorem unmatched_request_404_witness :
    matchesRoute Method.POST "/" = false ∧
      (handleRequest
        { method := Method.POST, path := "/", headers := [], query := [],
          body := "" }).status = 404 :=
  unmatched_request_404
    { method := Method.POST, path := "/", headers := [], query := [],
      body := "" } (by decide)

/-- C6 counterexample: the program does not establish validity of the bind
port for every value of `PORT` — with `PORT=99999` the value handed to the
listen call is TCP port 99999, which is not a valid TCP port number, and
no application code rejects it first. -/
theorem invalid_port_passed_to_listen :
    bindTarget (resolvePort (some "99999")) = BindTarget.tcp 99999 ∧
      validTcpPort 99999 = false := by
  constructor
  · decide
  · decide

/-- C6 amended: the application performs no port validation of its own;
the invariant holds for the default — when `PORT` is unset or empty, the
single listen call binds TCP port 3300, a valid TCP port — while any other
`PORT` value is passed through to the listen call unvalidated. -/
theorem default_port_valid (proc file : Env)
    (h : envAfterDotenv proc file "PORT" = none ∨
      envAfterDotenv proc file "PORT" = some "") :
    listenCalls proc file = [BindTarget.tcp 3300] ∧
      validTcpPort 3300 = true := by
  refine ⟨?_, by decide⟩
  rcases h with h | h <;>
    simp [listenCalls, resolvedPort, h, resolvePort, bindTarget]

/-- Witness for the amended C6 on empty environments. -/
theorem default_port_valid_witness :
    listenCalls [] [] = [BindTarget.tcp 3300] ∧ validTcpPort 3300 = true :=
  default_port_valid [] [] (Or.inl rfl)

/-- C7: on a successful bind the program writes exactly one line to
standard output — `Server running on http://localhost:` followed by the
resolved port — and on a failed bind it writes nothing. -/
theorem startup_log_exactly_once (proc file : Env) :
    programStdout proc file true =
      ["Server running on http://localhost:" ++
        portString (resolvedPort proc file)] ∧
      programStdout proc file false = [] := by
  exact ⟨rfl, rfl⟩

/-- C8: `dotenv.config()` on line 3 merges the `.env` file into the
process environment before line 6 reads `process.env.PORT`, so a `PORT`
value supplied only by the `.env` file determines the resolved port. -/
theorem dotenv_port_affects_resolution (proc file : Env) (s : String)
    (h1 : lookupEnv proc "PORT" = none)
    (h2 : lookupEnv file "PORT" = some s) (h3 : s ≠ "") :
    resolvedPort proc file = PortValue.str s := by
  simp [resolvedPort, envAfterDotenv, h1, h2, resolvePort, h3]

/-- Witness for C8: a `.env` file supplying `PORT=4100` to a process
environment that lacks `PORT`. -/
theorem dotenv_port_affects_resolution_witness :
    resolvedPort [] [("PORT", "4100")] = PortValue.str "4100" :=
  dotenv_port_affects_resolution [] [("PORT", "4100")] "4100" rfl rfl
    (by decide)

/-- C9: any two GET requests to `/` receive identical responses, whatever
their headers, query or body — the handler reads no request data and no
mutable state. -/
theorem get_root_responses_identical (r1 r2 : Request)
    (h1 : r1.method = Method.GET) (h2 : r1.path = "/")
    (h3 : r2.method = Method.GET) (h4 : r2.path = "/") :
    handleRequest r1 = handleRequest r2 := by
  simp [handleRequest, matchesRoute, routes, routeHandlesMethod, h1, h2,
    h3, h4, rootHandler, send]

/-- Witness for C9 at two concrete GET `/` requests that differ in
headers, query and body. -/
theorem get_root_responses_identical_witness :
    handleRequest
        { method := Method.GET, path := "/",
          headers := [("X-Trace", "a")], query := [("q", "1")],
          body := "payload" } =
      handleRequest
        { method := Method.GET, path := "/", headers := [], query := [],
          body := "" } :=
  get_root_responses_identical _ _ rfl rfl rfl rfl

/-- C10: when `PORT` is set, the resolved port is the default 3300 exactly
when the value is the empty string — the fallback is selected by string
falsiness, so among set values only the empty string triggers it. -/
theorem empty_port_iff_default (proc file : Env) (s : String)
    (h : envAfterDotenv proc file "PORT" = some s) :
    resolvedPort proc file = PortValue.num 3300 ↔ s = "" := by
  by_cases hs : s = "" <;> simp [resolvedPort, h, resolvePort, hs]

/-- Witness for C10: `PORT` set to the empty string resolves to 3300. -/
theorem empty_port_iff_default_witness :
    resolvedPort [("PORT", "")] [] = PortValue.num 3300 :=
  (empty_port_iff_default [("PORT", "")] [] "" rfl).mpr rfl

end ExpressApp
